import Mathlib

/-!
# Shallow embedding of the duty-shift timer

Embedding of the shift-timer component of
`src/assets/js/security/security.monitor.js` (the `SecurityMonitor` object).

Modelling conventions, all taken from the source:
* Times are integer milliseconds (`Date` subtraction in JS yields a number of
  milliseconds; all times written by this program are whole milliseconds),
  represented as `Int`.
* An invalid `Date` (NaN time value, produced by `new Date(s)` on an
  unparseable non-empty string) is modelled as `none : Option Int`; NaN
  propagates through subtraction and `Math.max`.
* The persisted `localStorage` slot `duty_start_time` is an `Option String`
  (`getItem` returns `null` when absent).
* `Date` parsing (`new Date(string)`) and serialisation (`toISOString`) are
  opaque collaborators of the component, passed in as parameters
  `parse : String → Option Int` (`none` = Invalid Date) and
  `encode : Int → String`.
-/

set_option autoImplicit false

namespace SecurityMonitor

/-- Display threshold states exposed to the presentation layer
(the `warning` / `critical` CSS classes; `normal` when neither is set). -/
inductive DState
  | normal
  | warning
  | critical
  deriving DecidableEq, Repr

/-- `shiftDuration: 8 * 60 * 60 * 1000` (line 11): initial shift length. -/
def initialShiftDuration : Int := 8 * 60 * 60 * 1000

/-- `const elapsed = now - this.dutyStartTime` (line 46). -/
def elapsedMs (dutyStartTime now : Int) : Int := now - dutyStartTime

/-- `const remaining = Math.max(0, this.shiftDuration - elapsed)` (line 47). -/
def remainingMs (dutyStartTime shiftDuration now : Int) : Int :=
  max 0 (shiftDuration - elapsedMs dutyStartTime now)

/-- The same computation when `dutyStartTime` may be an invalid `Date`
(`none`): `now - InvalidDate` is NaN and `Math.max(0, NaN)` is NaN, so the
result is again `none`. -/
def remainingMsJS (dutyStartTime : Option Int) (shiftDuration now : Int) : Option Int :=
  match dutyStartTime with
  | none => none
  | some t => some (remainingMs t shiftDuration now)

/-- `Math.floor(remaining / 3600000)` (line 49); `remaining ≥ 0`, so the JS
floor division is `Nat` division. -/
def hoursField (remaining : Nat) : Nat := remaining / 3600000

/-- `Math.floor((remaining % 3600000) / 60000)` (line 50). -/
def minutesField (remaining : Nat) : Nat := remaining % 3600000 / 60000

/-- `Math.floor((remaining % 60000) / 1000)` (line 51). -/
def secondsField (remaining : Nat) : Nat := remaining % 60000 / 1000

/-- JS `s.padStart(2, '0')`: prepend `'0'`s until the length is at least 2;
a string already of length ≥ 2 is returned unchanged (no truncation). -/
def padStart2 (s : String) : String :=
  if s.length < 2 then String.mk (List.replicate (2 - s.length) '0') ++ s else s

/-- Lines 53–57: `[hours, minutes, seconds].join(':')` after padding each
field (`join` on a three-element list is the appended form below). -/
def timeString (remaining : Nat) : String :=
  padStart2 (Nat.repr (hoursField remaining)) ++ ":" ++
    padStart2 (Nat.repr (minutesField remaining)) ++ ":" ++
      padStart2 (Nat.repr (secondsField remaining))

/-- Per-tick display classification (lines 64–75): the `warning` class is
added exactly when `hours === 0 && minutes <= 30 && minutes > 0`, the
`critical` class exactly when `remaining === 0`. The two conditions are
mutually exclusive (`remaining = 0` forces `minutes = 0`), so each tick
yields a single classification. -/
def displayStateOf (remaining : Nat) : DState :=
  if hoursField remaining = 0 ∧ minutesField remaining ≤ 30 ∧ 0 < minutesField remaining then
    DState.warning
  else if remaining = 0 then DState.critical
  else DState.normal

/-- Lines 71–75: `showEndOfShiftModal()` is invoked on a tick iff
`remaining === 0`; the code has no once-per-shift guard, the test is
re-evaluated on every tick. -/
def signalFires (remaining : Nat) : Bool := remaining == 0

/-- `startDutyTimer` (lines 29–39):
```
const stored = localStorage.getItem('duty_start_time');
this.dutyStartTime = stored ? new Date(stored) : new Date();
if (!stored) { localStorage.setItem('duty_start_time', this.dutyStartTime.toISOString()); }
```
Returns `(dutyStartTime, persisted slot after the call)`. A stored string is
truthy iff it is non-empty; `new Date(stored)` is `parse stored` (`none` =
Invalid Date); `new Date()` is `now`. -/
def startDutyTimer (parse : String → Option Int) (encode : Int → String)
    (stored : Option String) (now : Int) : Option Int × Option String :=
  match stored with
  | some s =>
      if s = "" then (some now, some (encode now))
      else (parse s, some s)
  | none => (some now, some (encode now))

/-- `requestOvertime` (lines 385–392): `this.shiftDuration += 2 * 60 * 60 * 1000`. -/
def requestOvertime (shiftDuration : Int) : Int := shiftDuration + 2 * 60 * 60 * 1000

/-- `endShift` (lines 375–380): `localStorage.removeItem('duty_start_time')`
clears the persisted slot. -/
def endShift : Option String → Option String := fun _ => none

/-- `logout` (lines 397–401): also
`localStorage.removeItem('duty_start_time')`. -/
def logout : Option String → Option String := fun _ => none

/-- The mutable fields of `SecurityMonitor` that `updateDutyTimer` reads
(valid start time case). -/
structure TimerState where
  dutyStartTime : Int
  shiftDuration : Int
  deriving DecidableEq, Repr

/-- Observable output of one `updateDutyTimer` call: the formatted string
written to the DOM, the threshold classification, and whether the
end-of-shift signal (`showEndOfShiftModal`) fires. -/
def tickOutput (st : TimerState) (now : Int) : String × DState × Bool :=
  let r := (remainingMs st.dutyStartTime st.shiftDuration now).toNat
  (timeString r, displayStateOf r, signalFires r)

/-- One `updateDutyTimer` call as a state transition: the function reads
`dutyStartTime` and `shiftDuration`, writes only the DOM, and mutates
neither field. -/
def updateDutyTimerStep (st : TimerState) (now : Int) : TimerState × (String × DState × Bool) :=
  (st, tickOutput st now)

/-- Run a sequence of ticks, threading the state. -/
def runTicks : TimerState → List Int → TimerState
  | st, [] => st
  | st, now :: rest => runTicks (updateDutyTimerStep st now).1 rest

/-- Outputs of a sequence of ticks, threading the state. -/
def tickOutputs : TimerState → List Int → List (String × DState × Bool)
  | _, [] => []
  | st, now :: rest =>
      (updateDutyTimerStep st now).2 :: tickOutputs (updateDutyTimerStep st now).1 rest

/-- The page-level operations that touch `shiftDuration`: timer ticks,
overtime requests, end-shift, logout (only `requestOvertime`, line 390, ever
writes the field). -/
inductive MOp
  | tick (now : Int)
  | requestOvertimeOp
  | endShiftOp
  | logoutOp
  deriving DecidableEq, Repr

/-- Effect of each operation on `shiftDuration`. -/
def applyShiftDuration (shiftDuration : Int) : MOp → Int
  | MOp.requestOvertimeOp => requestOvertime shiftDuration
  | _ => shiftDuration

/-- `shiftDuration` after a sequence of operations. -/
def runShiftDuration (shiftDuration : Int) (ops : List MOp) : Int :=
  ops.foldl applyShiftDuration shiftDuration

/-! ### A concrete timestamp codec

A small executable decimal codec used to instantiate the abstract
`parse` / `encode` collaborators (`new Date(string)` / `toISOString`) in
closed witness statements. -/

/-- Decimal digit value of a character, `none` for a non-digit. -/
def decodeDigit (c : Char) : Option Nat :=
  if c = '0' then some 0 else if c = '1' then some 1 else if c = '2' then some 2
  else if c = '3' then some 3 else if c = '4' then some 4 else if c = '5' then some 5
  else if c = '6' then some 6 else if c = '7' then some 7 else if c = '8' then some 8
  else if c = '9' then some 9 else none

/-- Fold a digit list into a number, failing on any non-digit. -/
def parseDigits : List Char → Nat → Option Nat
  | [], acc => some acc
  | c :: rest, acc =>
      match decodeDigit c with
      | none => none
      | some d => parseDigits rest (acc * 10 + d)

/-- Concrete stand-in for `new Date(string)`: decimal milliseconds, `none`
(Invalid Date) on the empty string or any non-digit character. -/
def demoParse (s : String) : Option Int :=
  match s.data with
  | [] => none
  | cs => (parseDigits cs 0).map Int.ofNat

/-- Concrete stand-in for `toISOString`: decimal milliseconds. -/
def demoEncode (t : Int) : String := Nat.repr t.toNat

/-! ### Helper lemmas -/

/-- A padded decimal numeral of a value below 100 is exactly two
characters. -/
theorem padStart2_repr_length : ∀ n, n < 100 → (padStart2 (Nat.repr n)).length = 2 := by
  decide

/-- With at least 31 minutes remaining, neither threshold class is added. -/
theorem displayStateOf_normal_of_big (r : Nat) (h : 1860000 ≤ r) :
    displayStateOf r = DState.normal := by
  simp only [displayStateOf, hoursField, minutesField]
  split_ifs <;> first | rfl | omega

/-- `updateDutyTimer` never mutates the timer state. -/
theorem runTicks_eq_self (hist : List Int) (st : TimerState) : runTicks st hist = st := by
  induction hist with
  | nil => rfl
  | cons t rest ih => simpa [runTicks, updateDutyTimerStep] using ih

/-- No operation decreases `shiftDuration`. -/
theorem le_runShiftDuration (ops : List MOp) : ∀ dur : Int, dur ≤ runShiftDuration dur ops := by
  induction ops with
  | nil => intro dur; exact le_refl dur
  | cons op rest ih =>
      intro dur
      refine le_trans ?_ (ih (applyShiftDuration dur op))
      cases op <;> simp [applyShiftDuration, requestOvertime]

/-! ### Claim theorems -/

/-- Claim C1 (refuted; code bug): the spec requires the end-of-shift signal
to fire exactly once per shift, but `updateDutyTimer` calls
`showEndOfShiftModal()` unconditionally whenever `remaining === 0`, with no
once-per-shift guard: on a shift started at time 0 with the default 8-hour
duration, two consecutive ticks at 28,800,000 ms and 28,800,001 ms both
raise the signal. -/
theorem showEndOfShiftModal_every_tick :
    (tickOutputs ⟨0, 28800000⟩ [28800000, 28800001]).map (fun o => o.2.2) = [true, true] := by
  decide

/-- Claim C2 (counterexample): the claim predicts the "warning" state for
every `0 < remainingMs ≤ 1,800,000`, but at `remainingMs = 30,000` (30
seconds left) the code computes `minutes = 0`, so the warning condition
`minutes > 0` fails and no threshold class is added. -/
theorem warning_threshold_counterexample :
    0 < 30000 ∧ 30000 ≤ 1800000 ∧ displayStateOf 30000 ≠ DState.warning := by
  decide

/-- Claim C2 (amended): the display enters the "warning" state exactly when
`60,000 ≤ remainingMs < 1,860,000` (at least one full minute and less than
31 minutes remaining), the condition `hours = 0 ∧ 0 < minutes ≤ 30`
actually tested by the code; in particular, with `shiftDurationMs` = 8 h and
elapsed = 7 h 31 min (remaining 29 min) the state is "warning". -/
theorem warning_threshold_amended :
    (∀ r : Nat, displayStateOf r = DState.warning ↔ 60000 ≤ r ∧ r < 1860000) ∧
    displayStateOf ((remainingMs 0 28800000 27060000).toNat) = DState.warning := by
  constructor
  · intro r
    simp only [displayStateOf, hoursField, minutesField]
    split_ifs with h1 h2 <;> simp_all <;> omega
  · decide

/-- Claim C3 (refuted; code bug): a persisted start value that is non-empty
but unparseable is NOT treated as absent. `startDutyTimer` evaluates
`new Date(stored)`, producing an Invalid Date (`none`), not `now`; every
subsequent remaining-time computation is then NaN (`none`). -/
theorem startDutyTimer_unparseable_start (parse : String → Option Int)
    (encode : Int → String) (s : String) (now dur : Int)
    (hs : s ≠ "") (hp : parse s = none) :
    (startDutyTimer parse encode (some s) now).1 = none ∧
    (startDutyTimer parse encode (some s) now).1 ≠ some now ∧
    (∀ now2 : Int, remainingMsJS (startDutyTimer parse encode (some s) now).1 dur now2 = none) := by
  simp [startDutyTimer, hs, hp, remainingMsJS]

/-- Witness for `startDutyTimer_unparseable_start`: the stored string `"x"`
is non-empty and unparseable, and `startDutyTimer` yields an Invalid Date. -/
theorem startDutyTimer_unparseable_start_witness :
    ("x" ≠ "") ∧ demoParse "x" = none ∧
    (startDutyTimer demoParse demoEncode (some "x") 0).1 = none :=
  ⟨by decide, by decide,
    (startDutyTimer_unparseable_start demoParse demoEncode "x" 0 0 (by decide) (by decide)).1⟩

/-- Claim C4 (counterexample): in the critical state, `requestOvertime`
need not increase `remainingMs` by exactly 2 h. With start 0, duration 8 h
and `now` = 9 h, `remainingMs` is 0 (critical); after the 2-hour extension
it is 3,600,000 ms, an increase of 1 h, not 2 h. -/
theorem requestOvertime_critical_counterexample :
    remainingMs 0 28800000 32400000 = 0 ∧
    remainingMs 0 (requestOvertime 28800000) 32400000 -
      remainingMs 0 28800000 32400000 = 3600000 ∧
    (3600000 : Int) ≠ 7200000 := by
  decide

/-- Claim C4 (amended): in the critical state, `requestOvertime` increases
`shiftDurationMs` by exactly 7,200,000 ms, and `remainingMs` becomes
`max 0 (shiftDurationMs + 7,200,000 − elapsed)` — an increase of exactly
2 h precisely when the extension happens at the moment remaining reached 0
(elapsed = shiftDurationMs); the display state returns to "normal" whenever
the resulting `remainingMs` is at least 31 minutes; and any later tick at
which `remainingMs` is 0 again raises the end-of-shift signal. -/
theorem requestOvertime_amended (start dur now : Int)
    (_hcrit : remainingMs start dur now = 0) :
    requestOvertime dur = dur + 7200000 ∧
    remainingMs start (requestOvertime dur) now = max 0 (dur + 7200000 - (now - start)) ∧
    (now - start = dur → remainingMs start (requestOvertime dur) now = 7200000) ∧
    (∀ now2 : Int, 1860000 ≤ remainingMs start (requestOvertime dur) now2 →
      displayStateOf (remainingMs start (requestOvertime dur) now2).toNat = DState.normal) ∧
    (∀ now2 : Int, remainingMs start (requestOvertime dur) now2 = 0 →
      signalFires (remainingMs start (requestOvertime dur) now2).toNat = true) := by
  refine ⟨by norm_num [requestOvertime], ?_, ?_, ?_, ?_⟩
  · simp only [remainingMs, elapsedMs, requestOvertime] at *
    norm_num
  · intro h2
    simp only [remainingMs, elapsedMs, requestOvertime, max_def] at *
    split_ifs <;> omega
  · intro now2 h2
    refine displayStateOf_normal_of_big _ ?_
    omega
  · intro now2 h2
    rw [h2]
    decide

/-- Witness for `requestOvertime_amended`: extending exactly when remaining
first reaches 0 (start 0, duration 8 h, `now` = 8 h) yields remaining
7,200,000 ms. -/
theorem requestOvertime_amended_witness :
    remainingMs 0 28800000 28800000 = 0 ∧
    remainingMs 0 (requestOvertime 28800000) 28800000 = 7200000 :=
  ⟨by decide,
    (requestOvertime_amended 0 28800000 28800000 (by decide)).2.2.1 (by decide)⟩

/-- Claim C5 (counterexample): the displayed string is not always
`HH:MM:SS` with two-digit fields: `padStart(2, '0')` only pads, it never
truncates, so at `remainingMs = 360,000,000` (100 hours) the hours field is
the three-character `"100"` and the string has length 9, not 8. -/
theorem timeString_three_digit_hours :
    timeString 360000000 = "100:00:00" ∧ ("100:00:00" : String).length ≠ 8 := by
  decide

/-- Claim C5 (amended): for every `remainingMs` below 100 hours
(360,000,000 ms) — which covers every reachable state short of 46 overtime
extensions — the tick output is `HH:MM:SS`: the three fields are the
truncating integer divisions of the claim, each zero-padded to exactly two
characters, and the whole string has length 8. -/
theorem timeString_shape (r : Nat) (h : r < 360000000) :
    timeString r =
      padStart2 (Nat.repr (r / 3600000)) ++ ":" ++
        padStart2 (Nat.repr (r % 3600000 / 60000)) ++ ":" ++
          padStart2 (Nat.repr (r % 60000 / 1000)) ∧
    (padStart2 (Nat.repr (r / 3600000))).length = 2 ∧
    (padStart2 (Nat.repr (r % 3600000 / 60000))).length = 2 ∧
    (padStart2 (Nat.repr (r % 60000 / 1000))).length = 2 ∧
    (timeString r).length = 8 := by
  have hh : r / 3600000 < 100 := by omega
  have hm : r % 3600000 / 60000 < 100 := by omega
  have hs : r % 60000 / 1000 < 100 := by omega
  refine ⟨rfl, padStart2_repr_length _ hh, padStart2_repr_length _ hm,
    padStart2_repr_length _ hs, ?_⟩
  simp [timeString, hoursField, minutesField, secondsField, String.length_append,
    padStart2_repr_length _ hh, padStart2_repr_length _ hm, padStart2_repr_length _ hs]
  decide

/-- Witness for `timeString_shape`: at `remainingMs = 1,500,000` the string
has length 8, and it is the claimed `"00:25:00"`. -/
theorem timeString_shape_witness :
    (1500000 : Nat) < 360000000 ∧ (timeString 1500000).length = 8 ∧
    timeString 1500000 = "00:25:00" :=
  ⟨by decide, (timeString_shape 1500000 (by decide)).2.2.2.2, by decide⟩

/-- Claim C6 (confirmed): on every tick, `remainingMs` is
`max 0 (shiftDurationMs − (now − startTime))`, hence never negative even
when the elapsed time exceeds the shift duration. -/
theorem updateDutyTimer_remaining_spec (start dur now : Int) :
    remainingMs start dur now = max 0 (dur - (now - start)) ∧
    0 ≤ remainingMs start dur now :=
  ⟨rfl, le_max_left 0 _⟩

/-- Claim C7 (confirmed): a tick is a pure recomputation from the wall
clock: `updateDutyTimer` never mutates the timer state, so the outputs
after any history of prior ticks coincide with the outputs from the initial
state; and restarting from the persisted encoding of the start time (with a
codec that round-trips) recovers exactly that start time, leaving the
persisted value unchanged. -/
theorem tick_pure_recovery (parse : String → Option Int) (encode : Int → String)
    (t dur now2 : Int) (hist ts : List Int)
    (hne : encode t ≠ "") (hround : parse (encode t) = some t) :
    (startDutyTimer parse encode (some (encode t)) now2).1 = some t ∧
    (startDutyTimer parse encode (some (encode t)) now2).2 = some (encode t) ∧
    runTicks ⟨t, dur⟩ hist = ⟨t, dur⟩ ∧
    tickOutputs (runTicks ⟨t, dur⟩ hist) ts = tickOutputs ⟨t, dur⟩ ts := by
  refine ⟨?_, ?_, runTicks_eq_self hist _, ?_⟩
  · simp [startDutyTimer, hne, hround]
  · simp [startDutyTimer, hne]
  · rw [runTicks_eq_self hist _]

/-- Witness for `tick_pure_recovery`: with the concrete decimal codec and
start time 5, the persisted value round-trips and restart recovers start
time 5. -/
theorem tick_pure_recovery_witness :
    demoEncode 5 ≠ "" ∧ demoParse (demoEncode 5) = some 5 ∧
    (startDutyTimer demoParse demoEncode (some (demoEncode 5)) 100).1 = some 5 :=
  ⟨by decide, by decide,
    (tick_pure_recovery demoParse demoEncode 5 28800000 100 [7] [8]
      (by decide) (by decide)).1⟩

/-- Claim C8 (confirmed): when a (non-empty, parseable) persisted start
time exists, `startDutyTimer` reuses it as `dutyStartTime` and leaves the
persisted slot unchanged; when none exists, it sets `dutyStartTime` to
`now` and persists its encoding. -/
theorem startDutyTimer_persistence (parse : String → Option Int)
    (encode : Int → String) (s : String) (t now : Int)
    (hs : s ≠ "") (hp : parse s = some t) :
    startDutyTimer parse encode (some s) now = (some t, some s) ∧
    startDutyTimer parse encode none now = (some now, some (encode now)) := by
  simp [startDutyTimer, hs, hp]

/-- Witness for `startDutyTimer_persistence`: the persisted value `"7"`
parses to 7 with the concrete codec and is reused unchanged. -/
theorem startDutyTimer_persistence_witness :
    ("7" ≠ "") ∧ demoParse "7" = some 7 ∧
    startDutyTimer demoParse demoEncode (some "7") 100 = (some 7, some "7") :=
  ⟨by decide, by decide,
    (startDutyTimer_persistence demoParse demoEncode "7" 7 100 (by decide) (by decide)).1⟩

/-- Claim C9 (confirmed): `endShift` and `logout` both clear the persisted
start-time slot (`removeItem`), and a subsequent `startDutyTimer` then
begins a fresh shift with `dutyStartTime = now`, persisting it. -/
theorem endShift_logout_clear (parse : String → Option Int)
    (encode : Int → String) (p : Option String) (now : Int) :
    endShift p = none ∧ logout p = none ∧
    startDutyTimer parse encode (endShift p) now = (some now, some (encode now)) ∧
    startDutyTimer parse encode (logout p) now = (some now, some (encode now)) :=
  ⟨rfl, rfl, rfl, rfl⟩

/-- Claim C10 (confirmed): `shiftDuration` starts at 8 hours
(28,800,000 ms); only the overtime request mutates it, adding exactly
7,200,000 ms, so it is monotonically non-decreasing across every operation
sequence in the life of the page, and in particular stays at least
28,800,000 ms. -/
theorem shiftDuration_monotone_invariant :
    initialShiftDuration = 28800000 ∧
    (∀ dur : Int, applyShiftDuration dur MOp.requestOvertimeOp = dur + 7200000) ∧
    (∀ (dur : Int) (op : MOp), dur ≤ applyShiftDuration dur op) ∧
    (∀ (dur : Int) (ops : List MOp), dur ≤ runShiftDuration dur ops) ∧
    (∀ ops : List MOp, 28800000 ≤ runShiftDuration initialShiftDuration ops) := by
  refine ⟨by norm_num [initialShiftDuration], ?_, ?_, ?_, ?_⟩
  · intro dur
    norm_num [applyShiftDuration, requestOvertime]
  · intro dur op
    cases op <;> simp [applyShiftDuration, requestOvertime]
  · intro dur ops
    exact le_runShiftDuration ops dur
  · intro ops
    have h := le_runShiftDuration ops initialShiftDuration
    simpa [initialShiftDuration] using h

end SecurityMonitor
